import Mathlib

/-!
Verification of the Flash Report reconciliation-and-aggregation pipeline.

The definitions below are shallow embeddings of the row-level and
report-level computations of `Flash_Report.py` (the PART 2 blocks of
`define_report_us.py` replicate the same computations).  Monetary amounts
are modelled as exact rationals; a spreadsheet cell that can be empty
(`NaN` in pandas) is modelled as an `Option`.
-/

namespace FlashReport

/-- One surviving transaction row, restricted to the monetary columns used
by the US calculations (`Flash_Report.py` lines 557-562, the `_USD`
columns) and by the CA calculations (lines 582-587, the `_LC` columns). -/
structure TxRow where
  ndp_total_usd : ℚ
  net_total_usd : ℚ
  upfront_discount_amt_usd : ℚ
  backend_discount_amt_usd : ℚ
  ndp_total_lc : ℚ
  net_total_lc : ℚ
  upfront_discount_amt_lc : ℚ
  backend_discount_amt_lc : ℚ

/-- US `Delta` column, line 558. -/
def deltaUS (r : TxRow) : ℚ :=
  (r.ndp_total_usd - r.upfront_discount_amt_usd - r.backend_discount_amt_usd) - r.net_total_usd

/-- US `Updated_upfront` column, line 559. -/
def updatedUpfrontUS (r : TxRow) : ℚ :=
  deltaUS r + r.upfront_discount_amt_usd

/-- US `Diff` column, line 560. -/
def diffUS (r : TxRow) : ℚ :=
  r.ndp_total_usd - r.backend_discount_amt_usd - updatedUpfrontUS r - r.net_total_usd

/-- US `Match` column, line 561. -/
def matchUS (r : TxRow) : ℚ :=
  r.ndp_total_usd - (updatedUpfrontUS r + r.backend_discount_amt_usd)

/-- US `Match_1` column, line 562. -/
def match1US (r : TxRow) : ℚ :=
  matchUS r - r.net_total_usd

/-- CA `Delta` column, line 583 (local-currency inputs). -/
def deltaCA (r : TxRow) : ℚ :=
  (r.ndp_total_lc - r.upfront_discount_amt_lc - r.backend_discount_amt_lc) - r.net_total_lc

/-- CA `Updated_upfront` column, line 584. -/
def updatedUpfrontCA (r : TxRow) : ℚ :=
  deltaCA r + r.upfront_discount_amt_lc

/-- CA `Diff` column, line 585. -/
def diffCA (r : TxRow) : ℚ :=
  r.ndp_total_lc - r.backend_discount_amt_lc - updatedUpfrontCA r - r.net_total_lc

/-- CA `Match` column, line 586. -/
def matchCA (r : TxRow) : ℚ :=
  r.ndp_total_lc - (updatedUpfrontCA r + r.backend_discount_amt_lc)

/-- CA `Match_1` column, line 587. -/
def match1CA (r : TxRow) : ℚ :=
  matchCA r - r.net_total_lc

/-- Rounding to 2 decimal places, modelling the pandas `.round(2)` calls.
All uses in the theorems below apply it to values that are already exact
multiples of `1/100`, where every tie-breaking convention agrees. -/
def round2 (q : ℚ) : ℚ :=
  (round (q * 100) : ℤ) / 100

/-- A rational that is an exact multiple of `1/100`, i.e. a 2-decimal value. -/
def IsTwoDec (q : ℚ) : Prop :=
  ∃ n : ℤ, q = n / 100

/-- The derived monetary columns of one `(Scheme_Name, PRODUCT_LINE)` row of
a regional report, as emitted (after the rounding at each merge boundary). -/
structure EmittedRow where
  ndpSalesTSO : ℚ
  upfront : ℚ
  backend : ℚ
  netSalesOut : ℚ
  otherExclusions : ℚ
  oemExclusions : ℚ
  laSales : ℚ
  totalExclusions : ℚ
  eligibleNet : ℚ

/-- Tail of `generate_currency_report_regional` (lines 972-1044) for one
report row.  Inputs are the raw aggregation results feeding the row:
`ndpTSOraw` the sum of the (already rounded) monthly sales columns,
`upfrontRaw`/`backendRaw` the `agg_df` sums, and the three exclusion-class
sums as `Option` (a failed left-merge gives `NaN`, then `fillna(0)`). -/
def buildEmittedRow (ndpTSOraw upfrontRaw backendRaw : ℚ)
    (otherRaw oemRaw laRaw : Option ℚ) : EmittedRow :=
  let ndpTSO := round2 ndpTSOraw
  let upfront := round2 upfrontRaw
  let backend := round2 backendRaw
  let netOut := round2 (ndpTSO - (upfront + backend))
  let other := round2 (otherRaw.getD 0)
  let oem := round2 (oemRaw.getD 0)
  let la := round2 (laRaw.getD 0)
  let totalExc := round2 (other + oem + la)
  let elig := round2 (netOut - totalExc)
  ⟨ndpTSO, upfront, backend, netOut, other, oem, la, totalExc, elig⟩

/-- `get_fiscal_quarter` (lines 770-778): fiscal quarter label of a calendar
month, with the fiscal year starting in November. -/
def get_fiscal_quarter (month : Nat) : String :=
  if month = 11 ∨ month = 12 ∨ month = 1 then "Q1"
  else if month = 2 ∨ month = 3 ∨ month = 4 then "Q2"
  else if month = 5 ∨ month = 6 ∨ month = 7 then "Q3"
  else "Q4"

/-- A calendar date (year, month, day). -/
structure CalDate where
  year : Int
  month : Nat
  day : Nat
deriving DecidableEq

/-- Fiscal-quarter start/end dates for the run date (lines 1388-1407). -/
def fiscalQuarterBounds (year : Int) (month : Nat) : CalDate × CalDate :=
  if month = 11 ∨ month = 12 then
    (⟨year, 11, 1⟩, ⟨year + 1, 1, 31⟩)
  else if month = 1 then
    (⟨year - 1, 11, 1⟩, ⟨year, 1, 31⟩)
  else if month = 2 ∨ month = 3 ∨ month = 4 then
    (⟨year, 2, 1⟩, ⟨year, 4, 30⟩)
  else if month = 5 ∨ month = 6 ∨ month = 7 then
    (⟨year, 5, 1⟩, ⟨year, 7, 31⟩)
  else
    (⟨year, 8, 1⟩, ⟨year, 10, 31⟩)

/-- Spec-side fiscal-quarter label, following the description in the spec of
fixed 3-month windows anchored to a November fiscal-year start:
November is month 0 of the fiscal year and each quarter spans 3 months. -/
def specFiscalQuarter (month : Nat) : String :=
  "Q" ++ toString ((month + 1) % 12 / 3 + 1)

/-- Exact-date lookup of the Days of Reporting calendar of a region
(lines 319-327 for CA, 354-362 for US): the first calendar row whose date
equals the run date, `none` when there is no exact match.  Dates are
abstract codes. -/
def daysLookup (cal : List (Nat × Int)) (today : Nat) : Option Int :=
  (cal.find? (fun e => e.fst == today)).map (fun e => e.snd)

/-- Outcome of the Days-of-Reporting stage of a run. `aborted` models the
`exit(1)` calls at lines 333 and 368; `completed` carries the two
days-of-reporting values with which the rest of the run (both region
reports) proceeds. -/
inductive RunOutcome where
  | aborted : RunOutcome
  | completed (daysCA daysUS : Int) : RunOutcome
deriving DecidableEq

/-- The Days-of-Reporting stage (lines 302-377): the CA calendar is probed
first and a missing exact match calls `exit(1)` (the `SystemExit` is not
caught by the surrounding `except Exception` handler), then the US
calendar likewise; only when both lookups succeed does the run continue. -/
def runDaysOfReporting (calCA calUS : List (Nat × Int)) (today : Nat) : RunOutcome :=
  match daysLookup calCA today with
  | none => RunOutcome.aborted
  | some dca =>
    match daysLookup calUS today with
    | none => RunOutcome.aborted
    | some dus => RunOutcome.completed dca dus

/-- The fixed `program_percentage_mapping` dictionary of
`create_summary_report` (lines 1243-1256). -/
def program_percentage_mapping : List (String × ℚ) :=
  [("ComputeStandard_PG", 0.005),
   ("StorageStandard_PG", 0.005),
   ("ComputeStandard_SBP", 0.055),
   ("StorageStandard_SBP", 0.055),
   ("ComputeFocus_PG", 0.035),
   ("StorageFocus_PG", 0.035),
   ("ComputeFocus_SBP", 0.065),
   ("StorageFocus_SBP", 0.065),
   ("ServicesStandard_PG", 0.02),
   ("ServicesStandard_SBP", 0.04),
   ("ServicesFocus_PG", 0.04),
   ("ServicesFocus_SBP", 0.06)]

/-- `program_percentage_mapping.get(key, 0.0)` (lines 1289 and 1320):
total lookup with a `0.0` default for keys absent from the table. -/
def programPercentageLookup (key : String) : ℚ :=
  match program_percentage_mapping.find? (fun p => p.fst == key) with
  | some p => p.snd
  | none => 0

/-- The numeric cells of one partner-summary row that the claims inspect
(`create_summary_report`, lines 1298-1341).  The two projected cells are
`Option ℚ` so that a blank spreadsheet cell (`none`) is distinguishable
from the number `0.0` (`some 0`). -/
structure SummaryEntry where
  amount : ℚ
  programPct : ℚ
  daysOfReporting : Int
  daysInQuarter : Int
  netQtdPerformance : ℚ
  netProjectedPerformance : Option ℚ
  totalRebateAmount : ℚ
  projectedRebateAmount : Option ℚ
deriving DecidableEq

/-- Construction of one PG or SBP summary entry for a program
(lines 1287-1317 for PG, 1319-1341 for SBP; both use the same formulas).
The source always writes a number into every numeric cell: the projected
cells hold `(sales / days_reporting) * days_quarter if days_reporting > 0
else 0.0`. -/
def createSummaryEntry (programName suffix : String) (totalSales : ℚ)
    (daysReporting daysQuarter : Int) : SummaryEntry :=
  let key := programName ++ "_" ++ suffix
  let pct := programPercentageLookup key
  let amount := totalSales * pct
  { amount := amount
    programPct := pct
    daysOfReporting := daysReporting
    daysInQuarter := daysQuarter
    netQtdPerformance := totalSales
    netProjectedPerformance :=
      some (if daysReporting > 0 then totalSales / (daysReporting : ℚ) * (daysQuarter : ℚ) else 0)
    totalRebateAmount := amount
    projectedRebateAmount :=
      some (if daysReporting > 0 then amount / (daysReporting : ℚ) * (daysQuarter : ℚ) else 0) }

/-- A classified transaction row, restricted to the columns inspected by
the scheme filtering and Services reclassification logic.  `Option String`
cells model pandas columns that can hold `NaN`. -/
structure ClassRow where
  scheme_name : String
  data_type : String
  product_line : String
  backend_deal_1 : Option String
  pipp_delas : Option String
  pn_standalone : Option String
  common_pn_pl : Option String
  portfolio_mapping_1 : Option String
  portfolio_mapping_2 : Option String
deriving DecidableEq

/-- Python `str(cell)` on a possibly-`NaN` cell: `NaN` prints as `"nan"`. -/
def strCell (o : Option String) : String :=
  match o with
  | none => "nan"
  | some s => s

/-- The check `pd.isna(cell) or cell` being the empty string used throughout the Services
reclassification. -/
def cellBlank (o : Option String) : Bool :=
  match o with
  | none => true
  | some s => s == ""

/-- Whether `needle` is a prefix of `hay`, on character lists. -/
def charsBeginWith : List Char → List Char → Bool
  | [], _ => true
  | _ :: _, [] => false
  | a :: as, b :: bs => a == b && charsBeginWith as bs

/-- Whether `needle` occurs as a contiguous sublist of `hay`. -/
def charsContainSub (needle : List Char) : List Char → Bool
  | [] => charsBeginWith needle []
  | b :: bs => charsBeginWith needle (b :: bs) || charsContainSub needle bs

/-- Python `str.startswith(pre)`. -/
def pyStartsWith (s pre : String) : Bool :=
  charsBeginWith pre.toList s.toList

/-- pandas `Series.str.contains(pat, case=False, na=False)` for a literal
pattern: case-insensitive substring containment. -/
def containsCI (pat : String) (s : String) : Bool :=
  charsContainSub (pat.toList.map Char.toLower) (s.toList.map Char.toLower)

/-- The `Scheme_Name.str.contains` test for the pattern `Compute|Storage` (case-insensitive, na=False)
test (regex alternation of two literals). -/
def schemeIsComputeStorage (s : String) : Bool :=
  containsCI "Compute" s || containsCI "Storage" s

/-- The `Scheme_Name.str.contains` test for `Services` (case-insensitive, na=False). -/
def schemeIsServices (s : String) : Bool :=
  containsCI "Services" s

/-- `PIPP_delas` assignment (lines 600-601): the backend-deal code is kept
where it appears in the `ELICPES` column of the reference file, `NaN` otherwise. -/
def pippDelas (elicpes : List String) (deal : Option String) : Option String :=
  match deal with
  | none => none
  | some d => if elicpes.contains d then some d else none

/-- Annotates a row with its `PIPP_delas` value. -/
def assignPippDelas (elicpes : List String) (r : ClassRow) : ClassRow :=
  { r with pipp_delas := pippDelas elicpes r.backend_deal_1 }

/-- The Services `Scheme_Name` update applied row-by-row
(lines 869-895; repeated verbatim at lines 923-942 and 1158-1177). -/
def servicesSchemeUpdate (r : ClassRow) : ClassRow :=
  if r.pn_standalone == some "Services Focus standalone"
      || r.pn_standalone == some "Services Standard standalone" then r
  else if cellBlank r.pn_standalone then
    if !cellBlank r.common_pn_pl && r.common_pn_pl == some "Common PL" then
      if pyStartsWith (strCell r.portfolio_mapping_1) "Operational Service"
          && pyStartsWith (strCell r.portfolio_mapping_2) "Complete Care (excl. MS & GL)" then
        { r with scheme_name := "ServicesFocus" }
      else if !cellBlank r.portfolio_mapping_1 && !cellBlank r.portfolio_mapping_2
          && !pyStartsWith (strCell r.portfolio_mapping_2) "Complete Care (excl. MS & GL)" then
        { r with scheme_name := "ServicesStandard" }
      else r
    else r
  else r

/-- The Services reclassification exactly as claim C3 words it, with the
literal prefix of the claim, "Complete Care (excluding MS & GL)" for mapping
field 2. -/
def servicesSchemeUpdateClaim (r : ClassRow) : ClassRow :=
  if cellBlank r.pn_standalone && r.common_pn_pl == some "Common PL" then
    if pyStartsWith (strCell r.portfolio_mapping_1) "Operational Service"
        && pyStartsWith (strCell r.portfolio_mapping_2) "Complete Care (excluding MS & GL)" then
      { r with scheme_name := "ServicesFocus" }
    else if !cellBlank r.portfolio_mapping_1 && !cellBlank r.portfolio_mapping_2
        && !pyStartsWith (strCell r.portfolio_mapping_2) "Complete Care (excluding MS & GL)" then
      { r with scheme_name := "ServicesStandard" }
    else r
  else r

/-- The amended C3 rule: as the claim words it, but with the literal of the code,
prefix "Complete Care (excl. MS & GL)" for mapping field 2. -/
def servicesSchemeUpdateAmended (r : ClassRow) : ClassRow :=
  if cellBlank r.pn_standalone && r.common_pn_pl == some "Common PL" then
    if pyStartsWith (strCell r.portfolio_mapping_1) "Operational Service"
        && pyStartsWith (strCell r.portfolio_mapping_2) "Complete Care (excl. MS & GL)" then
      { r with scheme_name := "ServicesFocus" }
    else if !cellBlank r.portfolio_mapping_1 && !cellBlank r.portfolio_mapping_2
        && !pyStartsWith (strCell r.portfolio_mapping_2) "Complete Care (excl. MS & GL)" then
      { r with scheme_name := "ServicesStandard" }
    else r
  else r

/-- The "formatted data copy" filter (lines 650-653 US, 662-665 CA):
keep rows with a non-empty `Scheme_Name` and a `NaN` `PIPP_delas`. -/
def formattedFilter (r : ClassRow) : Bool :=
  (r.scheme_name != "") && r.pipp_delas.isNone

/-- The "formatted data with exclusions" copy (lines 673-681): despite the
comments announcing data from before exclusions filtering, the source
applies the very same `Scheme_Name`/`PIPP_delas` filter to the same base
dataframe. -/
def formattedWithExclusionsFilter (r : ClassRow) : Bool :=
  (r.scheme_name != "") && r.pipp_delas.isNone

/-- `df_exclusions_columns_final_*_formatted` (lines 650-665). -/
def formattedCopy (rows : List ClassRow) : List ClassRow :=
  rows.filter formattedFilter

/-- `df_exclusions_columns_final_*_formatted_with_exclusions` (lines 673-681). -/
def formattedWithExclusionsCopy (rows : List ClassRow) : List ClassRow :=
  rows.filter formattedWithExclusionsFilter

/-- `df_main_data_unfiltered = df_main_data.copy()`
(`generate_currency_report_regional`, line 834). -/
def dfMainDataUnfiltered (dfMainData : List ClassRow) : List ClassRow :=
  dfMainData

/-- `df_combined_filtered` (lines 837-900): the Compute/Storage rows with
`DATA_TYPE` equal to `DS`, plus Compute/Storage `Orders`/`S4DOR` rows on product
line `N3`, plus the Services rows after the Services `Scheme_Name` update.
This population feeds the `Updated_upfront`/backend-discount aggregation. -/
def combinedFiltered (dfMainData : List ClassRow) : List ClassRow :=
  let computeStorageBase := dfMainData.filter
    (fun r => schemeIsComputeStorage r.scheme_name && r.data_type == "DS")
  let computeStorageOrdersN3 := dfMainData.filter
    (fun r => schemeIsComputeStorage r.scheme_name
      && (r.data_type == "Orders" || r.data_type == "S4DOR")
      && r.product_line == "N3")
  let services := (dfMainData.filter
    (fun r => schemeIsServices r.scheme_name
      && (r.data_type == "DS" || r.data_type == "Orders" || r.data_type == "S4DOR"))).map
    servicesSchemeUpdate
  computeStorageBase ++ computeStorageOrdersN3 ++ services

/-- `df_combined_unfiltered` (lines 904-945): the same scheme filtering and
Services update applied to `df_main_data_unfiltered`.  This population
feeds the monthly sales pivot. -/
def combinedUnfiltered (dfMainData : List ClassRow) : List ClassRow :=
  let base := dfMainDataUnfiltered dfMainData
  let computeStorageBase := base.filter
    (fun r => schemeIsComputeStorage r.scheme_name && r.data_type == "DS")
  let computeStorageOrdersN3 := base.filter
    (fun r => schemeIsComputeStorage r.scheme_name
      && (r.data_type == "Orders" || r.data_type == "S4DOR")
      && r.product_line == "N3")
  let services := (base.filter
    (fun r => schemeIsServices r.scheme_name
      && (r.data_type == "DS" || r.data_type == "Orders" || r.data_type == "S4DOR"))).map
    servicesSchemeUpdate
  computeStorageBase ++ computeStorageOrdersN3 ++ services

/-- End-to-end population of the monthly sales pivot of a region report:
the with-exclusions formatted copy is what reaches
`generate_currency_report_regional` as `df_main_data` (lines 808-811 and
1061-1062), and the pivot runs over `df_combined_unfiltered` (line 951). -/
def monthlySalesPopulation (rows : List ClassRow) : List ClassRow :=
  combinedUnfiltered (formattedWithExclusionsCopy rows)

/-- End-to-end population of the `Upfront`/`Backend` totals of a region
report: the aggregation at line 976 runs over `df_combined_filtered`,
derived from the same `df_main_data` argument. -/
def upfrontBackendPopulation (rows : List ClassRow) : List ClassRow :=
  combinedFiltered (formattedWithExclusionsCopy rows)

/-- A deal-excluded transaction row: valid scheme, direct-sale data type,
backend-deal code `"D1"`. -/
def dealExcludedRow : ClassRow :=
  { scheme_name := "ComputeStandard"
    data_type := "DS"
    product_line := "P1"
    backend_deal_1 := some "D1"
    pipp_delas := none
    pn_standalone := none
    common_pn_pl := none
    portfolio_mapping_1 := none
    portfolio_mapping_2 := none }

/-- The C3 witness row: no standalone tag, `Common PL` tag, mapping field 1
starting with "Operational Service", and mapping field 2 equal to the
literal of the claim, "Complete Care (excluding MS & GL)" (the code uses
"Complete Care (excl. MS & GL)" instead). -/
def servicesC3Row : ClassRow :=
  { scheme_name := "ServicesStandard"
    data_type := "DS"
    product_line := "P2"
    backend_deal_1 := none
    pipp_delas := none
    pn_standalone := none
    common_pn_pl := some "Common PL"
    portfolio_mapping_1 := some "Operational Service A"
    portfolio_mapping_2 := some "Complete Care (excluding MS & GL)"
    }

/-- The default `main_file_mappings` table (`get_default_mappings`,
lines 137-162): canonical field name paired with its ordered alias list. -/
def mainFileMappings : List (String × List String) :=
  [("SRC_SYS_KY", ["SRC_SYS_KY", "Src Sys Ky"]),
   ("CROSS_SOURCED", ["CROSS_SOURCED", "Cross Sourced"]),
   ("BDE_FLAG", ["BDE_FLAG", "Bde Flag"]),
   ("MSP_FLAG", ["MSP_FLAG", "MSP Flag"]),
   ("REPORTING_TYPE", ["REPORTING_TYPE", "Reporting Type"]),
   ("PRODUCT_LINE", ["PRODUCT_LINE", "Product Line"]),
   ("RESELLER_PARTY_ID", ["RESELLER_PARTY_ID", "Reseller Party Id"]),
   ("DISTRIBUTOR_PARTY_ID", ["DISTRIBUTOR_PARTY_ID", "Distributor Party Id"]),
   ("FISCAL_MONTH", ["FISCAL_MONTH", "Fiscal Month"]),
   ("NDP_TOTAL_USD", ["NDP_TOTAL_USD", "Ndp Total Usd"]),
   ("NET_TOTAL_USD", ["NET_TOTAL_USD", "Net Total Usd"]),
   ("UPFRONT_DISCOUNT_AMT_USD", ["UPFRONT_DISCOUNT_AMT_USD", "Upfront Discount Amt Usd"]),
   ("BACKEND_DISCOUNT_AMT_USD", ["BACKEND_DISCOUNT_AMT_USD", "Backend Discount Amt Usd"]),
   ("DATA_TYPE", ["DATA_TYPE", "Data Type"]),
   ("BACKEND_DEAL_1", ["BACKEND_DEAL_1", "Backend Deal 1"]),
   ("INVOICE_NUMBER", ["INVOICE_NUMBER", "Invoice Number"]),
   ("HPE_SALES_ORDER_NUMBER", ["HPE_SALES_ORDER_NUMBER", "Hpe Sales Order Number"]),
   ("NET_TOTAL_LC", ["NET_TOTAL_LC", "Net Total Lc"]),
   ("BACKEND_DISCOUNT_AMT_LC", ["BACKEND_DISCOUNT_AMT_LC", "Backend Discount Amt Lc"]),
   ("UPFRONT_DISCOUNT_AMT_LC", ["UPFRONT_DISCOUNT_AMT_LC", "Upfront Discount Amt Lc"]),
   ("NDP_TOTAL_LC", ["NDP_TOTAL_LC", "Ndp Total Lc"]),
   ("DISTRIBUTOR_PARTY_NAME", ["Distributor Party Name", "DISTRIBUTOR_PARTY_NAME"]),
   ("RESELLER_PARTY_NAME", ["Reseller Party Name", "RESELLER_PARTY_NAME"]),
   ("PRODUCT_NUMBER", ["Product Number", "PRODUCT_NUMBER"])]

/-- The canonical field names of the main-file mapping table. -/
def canonicalHeaders : List String :=
  mainFileMappings.map Prod.fst

/-- `find_column_match` (lines 165-185), parametric in `closeMatch`, which
models `difflib.get_close_matches(word, possibilities, n=1, cutoff)` as an
external collaborator: given a cutoff, a word and the candidate list it
returns at most one best approximate match.  Stage 1 scans the alias list of the target for a literal hit; stage 2 asks `closeMatch` at cutoff `0.8`
for each alias in order; the last resort asks `closeMatch` at cutoff
`0.7` on the target itself. -/
def findColumnMatch (closeMatch : ℚ → String → List String → Option String)
    (target : String) (available : List String)
    (mappings : List (String × List String)) : Option String :=
  let lastResort := closeMatch (7 / 10) target available
  match mappings.find? (fun p => p.fst == target) with
  | none => lastResort
  | some p =>
    match p.snd.find? (fun v => available.contains v) with
    | some v => some v
    | none =>
      match p.snd.findSome? (fun v => closeMatch (8 / 10) v available) with
      | some m => some m
      | none => lastResort

/-- The rename-map construction of `standardize_column_names`
(lines 196-209): for each target field in table order, record
`matched -> target` when a match is found. -/
def buildColumnMapping (closeMatch : ℚ → String → List String → Option String)
    (mappings : List (String × List String)) (available : List String) :
    List (String × String) :=
  mappings.filterMap
    (fun p => (findColumnMatch closeMatch p.fst available mappings).map
      (fun m => (m, p.fst)))

/-- `df.rename(columns=column_mapping)` (line 212): each header is replaced
by its image under the rename map when present, kept otherwise. -/
def applyRename (cmap : List (String × String)) (cols : List String) : List String :=
  cols.map (fun c =>
    match cmap.find? (fun p => p.fst == c) with
    | some p => p.snd
    | none => c)

/-- `round2` always lands on a 2-decimal value. -/
theorem isTwoDec_round2 (q : ℚ) : IsTwoDec (round2 q) :=
  ⟨round (q * 100), rfl⟩

/-- `round2` is the identity on 2-decimal values (so the tie-breaking
convention of the rounding never matters there). -/
theorem round2_eq_self {q : ℚ} (h : IsTwoDec q) : round2 q = q := by
  obtain ⟨n, rfl⟩ := h
  unfold round2
  rw [div_mul_cancel₀ _ (by norm_num : (100 : ℚ) ≠ 0), round_intCast]

/-- 2-decimal values are closed under addition. -/
theorem IsTwoDec.add {a b : ℚ} (ha : IsTwoDec a) (hb : IsTwoDec b) :
    IsTwoDec (a + b) := by
  obtain ⟨m, rfl⟩ := ha
  obtain ⟨n, rfl⟩ := hb
  exact ⟨m + n, by push_cast; ring⟩

/-- 2-decimal values are closed under subtraction. -/
theorem IsTwoDec.sub {a b : ℚ} (ha : IsTwoDec a) (hb : IsTwoDec b) :
    IsTwoDec (a - b) := by
  obtain ⟨m, rfl⟩ := ha
  obtain ⟨n, rfl⟩ := hb
  exact ⟨m - n, by push_cast; ring⟩

/-- C1: for every surviving row the reconciliation calculator computes, in
the region currency of the row (USD for US, local currency for CA):
Delta = list price − upfront discount − backend discount − net total;
Updated_upfront = Delta + upfront discount;
Diff = list price − backend discount − Updated_upfront − net total;
Match = list price − (Updated_upfront + backend discount);
Match_1 = Match − net total. -/
theorem c1_reconciliation_formulas (r : TxRow) :
    deltaUS r = r.ndp_total_usd - r.upfront_discount_amt_usd
      - r.backend_discount_amt_usd - r.net_total_usd
  ∧ updatedUpfrontUS r = deltaUS r + r.upfront_discount_amt_usd
  ∧ diffUS r = r.ndp_total_usd - r.backend_discount_amt_usd
      - updatedUpfrontUS r - r.net_total_usd
  ∧ matchUS r = r.ndp_total_usd - (updatedUpfrontUS r + r.backend_discount_amt_usd)
  ∧ match1US r = matchUS r - r.net_total_usd
  ∧ deltaCA r = r.ndp_total_lc - r.upfront_discount_amt_lc
      - r.backend_discount_amt_lc - r.net_total_lc
  ∧ updatedUpfrontCA r = deltaCA r + r.upfront_discount_amt_lc
  ∧ diffCA r = r.ndp_total_lc - r.backend_discount_amt_lc
      - updatedUpfrontCA r - r.net_total_lc
  ∧ matchCA r = r.ndp_total_lc - (updatedUpfrontCA r + r.backend_discount_amt_lc)
  ∧ match1CA r = matchCA r - r.net_total_lc :=
  ⟨rfl, rfl, rfl, rfl, rfl, rfl, rfl, rfl, rfl, rfl⟩

/-- C10: with exact arithmetic the derived Diff field and the Match_1
residual are identically zero for every row and all input values, and
Match always equals the net total of the row, in both region currencies. -/
theorem c10_diff_match_residual_identically_zero (r : TxRow) :
    diffUS r = 0 ∧ match1US r = 0 ∧ matchUS r = r.net_total_usd
  ∧ diffCA r = 0 ∧ match1CA r = 0 ∧ matchCA r = r.net_total_lc := by
  refine ⟨?_, ?_, ?_, ?_, ?_, ?_⟩ <;>
    simp only [diffUS, match1US, matchUS, updatedUpfrontUS, deltaUS,
      diffCA, match1CA, matchCA, updatedUpfrontCA, deltaCA] <;>
    ring

/-- C7: in every emitted report row the eligible-net value equals the
emitted net-sales-out value minus the emitted total-exclusions value
exactly, and total exclusions is exactly the sum of the three emitted
exclusion classes (other exclusions, OEM exclusions, cross-region LA
sales). -/
theorem c7_eligible_net_exact (ndpTSOraw upfrontRaw backendRaw : ℚ)
    (otherRaw oemRaw laRaw : Option ℚ) :
    (buildEmittedRow ndpTSOraw upfrontRaw backendRaw otherRaw oemRaw laRaw).totalExclusions
      = (buildEmittedRow ndpTSOraw upfrontRaw backendRaw otherRaw oemRaw laRaw).otherExclusions
      + (buildEmittedRow ndpTSOraw upfrontRaw backendRaw otherRaw oemRaw laRaw).oemExclusions
      + (buildEmittedRow ndpTSOraw upfrontRaw backendRaw otherRaw oemRaw laRaw).laSales
  ∧ (buildEmittedRow ndpTSOraw upfrontRaw backendRaw otherRaw oemRaw laRaw).eligibleNet
      = (buildEmittedRow ndpTSOraw upfrontRaw backendRaw otherRaw oemRaw laRaw).netSalesOut
      - (buildEmittedRow ndpTSOraw upfrontRaw backendRaw otherRaw oemRaw laRaw).totalExclusions := by
  constructor
  · show round2 (round2 (otherRaw.getD 0) + round2 (oemRaw.getD 0) + round2 (laRaw.getD 0))
      = round2 (otherRaw.getD 0) + round2 (oemRaw.getD 0) + round2 (laRaw.getD 0)
    exact round2_eq_self (((isTwoDec_round2 _).add (isTwoDec_round2 _)).add (isTwoDec_round2 _))
  · show round2 (round2 (round2 ndpTSOraw - (round2 upfrontRaw + round2 backendRaw))
        - round2 (round2 (otherRaw.getD 0) + round2 (oemRaw.getD 0) + round2 (laRaw.getD 0)))
      = round2 (round2 ndpTSOraw - (round2 upfrontRaw + round2 backendRaw))
        - round2 (round2 (otherRaw.getD 0) + round2 (oemRaw.getD 0) + round2 (laRaw.getD 0))
    exact round2_eq_self ((isTwoDec_round2 _).sub (isTwoDec_round2 _))

/-- C8: the fiscal-quarter assignment is anchored to a November fiscal-year
start with fixed 3-month windows (November, December, January map to Q1;
February, March, April to Q2; May, June, July to Q3; August, September,
October to Q4), and the quarter start/end dates returned for the run date
are the corresponding window boundaries (Q1 runs November 1 through
January 31, with the year adjusted when the run month is January). -/
theorem c8_fiscal_quarter_windows (y : Int) (m : Nat) (h1 : 1 ≤ m) (h2 : m ≤ 12) :
    get_fiscal_quarter m = specFiscalQuarter m
  ∧ (m = 11 ∨ m = 12 → fiscalQuarterBounds y m = (⟨y, 11, 1⟩, ⟨y + 1, 1, 31⟩))
  ∧ (m = 1 → fiscalQuarterBounds y m = (⟨y - 1, 11, 1⟩, ⟨y, 1, 31⟩))
  ∧ (m = 2 ∨ m = 3 ∨ m = 4 → fiscalQuarterBounds y m = (⟨y, 2, 1⟩, ⟨y, 4, 30⟩))
  ∧ (m = 5 ∨ m = 6 ∨ m = 7 → fiscalQuarterBounds y m = (⟨y, 5, 1⟩, ⟨y, 7, 31⟩))
  ∧ (m = 8 ∨ m = 9 ∨ m = 10 → fiscalQuarterBounds y m = (⟨y, 8, 1⟩, ⟨y, 10, 31⟩)) := by
  interval_cases m <;>
    refine ⟨by decide, ?_, ?_, ?_, ?_, ?_⟩ <;>
    intro h <;>
    first
      | rfl
      | exact absurd h (by decide)

/-- Witness for C8 at a concrete run date (November of year 2025). -/
theorem c8_fiscal_quarter_windows_witness :
    1 ≤ 11 ∧ 11 ≤ 12
  ∧ (get_fiscal_quarter 11 = specFiscalQuarter 11
  ∧ (11 = 11 ∨ 11 = 12 →
      fiscalQuarterBounds 2025 11 = (⟨2025, 11, 1⟩, ⟨(2025 : Int) + 1, 1, 31⟩))
  ∧ (11 = 1 → fiscalQuarterBounds 2025 11 = (⟨(2025 : Int) - 1, 11, 1⟩, ⟨2025, 1, 31⟩))
  ∧ (11 = 2 ∨ 11 = 3 ∨ 11 = 4 → fiscalQuarterBounds 2025 11 = (⟨2025, 2, 1⟩, ⟨2025, 4, 30⟩))
  ∧ (11 = 5 ∨ 11 = 6 ∨ 11 = 7 → fiscalQuarterBounds 2025 11 = (⟨2025, 5, 1⟩, ⟨2025, 7, 31⟩))
  ∧ (11 = 8 ∨ 11 = 9 ∨ 11 = 10 → fiscalQuarterBounds 2025 11 = (⟨2025, 8, 1⟩, ⟨2025, 10, 31⟩))) :=
  ⟨by decide, by decide, c8_fiscal_quarter_windows 2025 11 (by decide) (by decide)⟩

/-- C4 counterexample: with an empty CA reporting calendar and a US
calendar that does contain the run date, the code aborts the whole run
(`exit(1)`), so the US report does not complete even though its own
lookup would succeed — refuting the claim that the failure halts only the
affected region. -/
theorem c4_calendar_abort_counterexample :
    daysLookup [] 0 = none
  ∧ daysLookup [(0, 5)] 0 = some 5
  ∧ runDaysOfReporting [] [(0, 5)] 0 = RunOutcome.aborted :=
  ⟨rfl, rfl, rfl⟩

/-- C4 amended: a reporting calendar with no exact match for the run date
in either region aborts the entire run (no estimate is substituted), and
the run proceeds — with the days-of-reporting values of both regions — exactly
when both lookups succeed. -/
theorem c4_calendar_abort_whole_run (calCA calUS : List (Nat × Int)) (d : Nat) :
    ((daysLookup calCA d = none ∨ daysLookup calUS d = none) →
      runDaysOfReporting calCA calUS d = RunOutcome.aborted)
  ∧ (∀ a b, daysLookup calCA d = some a → daysLookup calUS d = some b →
      runDaysOfReporting calCA calUS d = RunOutcome.completed a b) := by
  constructor
  · rintro (h | h)
    · simp [runDaysOfReporting, h]
    · cases hca : daysLookup calCA d <;> simp [runDaysOfReporting, hca, h]
  · intro a b ha hb
    simp [runDaysOfReporting, ha, hb]

/-- Witness for the amended C4 at a concrete input: an empty CA calendar
aborts the whole run. -/
theorem c4_calendar_abort_whole_run_witness :
    (daysLookup ([] : List (Nat × Int)) 0 = none ∨ daysLookup [(0, 5)] 0 = none)
  ∧ runDaysOfReporting [] [(0, 5)] 0 = RunOutcome.aborted :=
  ⟨Or.inl rfl, (c4_calendar_abort_whole_run [] [(0, 5)] 0).1 (Or.inl rfl)⟩

/-- C5 counterexample: with `days_of_reporting = 0` the code writes the
number `0.0` into both projected cells — they are not left blank. -/
theorem c5_projected_not_blank_counterexample :
    (createSummaryEntry "ComputeStandard" "PG" 100 0 64).netProjectedPerformance = some 0
  ∧ (createSummaryEntry "ComputeStandard" "PG" 100 0 64).projectedRebateAmount = some 0
  ∧ (createSummaryEntry "ComputeStandard" "PG" 100 0 64).netProjectedPerformance ≠ none := by
  refine ⟨?_, ?_, ?_⟩ <;> decide

/-- C5 amended: for every partner summary row produced with
`days_of_reporting = 0`, the projected fields are set to `0.0` — the
division is never performed, so there is no divide-by-zero failure — and
the non-projected fields are still produced as usual. -/
theorem c5_projected_zero_when_no_reporting_days (p sfx : String) (s : ℚ) (dq : Int) :
    (createSummaryEntry p sfx s 0 dq).netProjectedPerformance = some 0
  ∧ (createSummaryEntry p sfx s 0 dq).projectedRebateAmount = some 0
  ∧ (createSummaryEntry p sfx s 0 dq).netQtdPerformance = s
  ∧ (createSummaryEntry p sfx s 0 dq).amount = s * programPercentageLookup (p ++ "_" ++ sfx)
  ∧ (createSummaryEntry p sfx s 0 dq).totalRebateAmount
      = s * programPercentageLookup (p ++ "_" ++ sfx)
  ∧ (createSummaryEntry p sfx s 0 dq).programPct = programPercentageLookup (p ++ "_" ++ sfx) := by
  refine ⟨?_, ?_, rfl, rfl, rfl, rfl⟩ <;> norm_num [createSummaryEntry]

/-- A program key absent from the fixed rate table looks up to rate `0`. -/
theorem programPercentageLookup_eq_zero {k : String}
    (h : k ∉ program_percentage_mapping.map Prod.fst) :
    programPercentageLookup k = 0 := by
  unfold programPercentageLookup
  cases hf : program_percentage_mapping.find? (fun q => q.fst == k) with
  | none => rfl
  | some pr =>
    exfalso
    apply h
    have hp := List.find?_some hf
    have hmem : pr ∈ program_percentage_mapping := List.mem_of_find?_eq_some hf
    exact List.mem_map.mpr ⟨pr, hmem, by simpa using hp⟩

/-- C6: the program-percentage lookup is total and never raises — it is a
total function of the key; `"ComputeStandard_PG"` yields rate `0.005`, and
any key absent from the fixed program-to-rate table yields rate `0` and a
computed amount of `0` (coverage sales times rate). -/
theorem c6_program_percentage_total (p sfx : String) (s : ℚ) (d q : Int)
    (h : (p ++ "_" ++ sfx) ∉ program_percentage_mapping.map Prod.fst) :
    programPercentageLookup "ComputeStandard_PG" = 0.005
  ∧ programPercentageLookup (p ++ "_" ++ sfx) = 0
  ∧ (createSummaryEntry p sfx s d q).amount = 0 := by
  refine ⟨rfl, programPercentageLookup_eq_zero h, ?_⟩
  show s * programPercentageLookup (p ++ "_" ++ sfx) = 0
  rw [programPercentageLookup_eq_zero h, mul_zero]

/-- Witness for C6 at the unmapped key `"Foo_PG"` with coverage sales 3. -/
theorem c6_program_percentage_total_witness :
    ("Foo" ++ "_" ++ "PG") ∉ program_percentage_mapping.map Prod.fst
  ∧ (programPercentageLookup "ComputeStandard_PG" = 0.005
     ∧ programPercentageLookup ("Foo" ++ "_" ++ "PG") = 0
     ∧ (createSummaryEntry "Foo" "PG" 3 5 64).amount = 0) :=
  ⟨by decide, c6_program_percentage_total "Foo" "PG" 3 5 64 (by decide)⟩

/-- C2 (code divergence): the with-exclusions copy applies the very same
filter as the exclusion-filtered copy, and `generate_currency_report_regional`
derives its "unfiltered" monthly-sales population from a plain copy of the
same `df_main_data`, so the monthly sales pivot and the Upfront/Backend
totals are computed over identical populations; in particular a
deal-excluded row (backend-deal code `"D1"` present in the eligible-deal
list `["D1"]`) is dropped from the monthly sales population as well,
contrary to the claim and to the comments in the source. -/
theorem c2_monthly_and_totals_populations_coincide :
    (∀ rows : List ClassRow, monthlySalesPopulation rows = upfrontBackendPopulation rows)
  ∧ (∀ rows : List ClassRow, formattedWithExclusionsCopy rows = formattedCopy rows)
  ∧ assignPippDelas ["D1"] dealExcludedRow
      = { dealExcludedRow with pipp_delas := some "D1" }
  ∧ formattedWithExclusionsCopy [assignPippDelas ["D1"] dealExcludedRow] = []
  ∧ monthlySalesPopulation [assignPippDelas ["D1"] dealExcludedRow] = []
  ∧ upfrontBackendPopulation [assignPippDelas ["D1"] dealExcludedRow] = [] :=
  ⟨fun _ => rfl, fun _ => rfl, rfl, rfl, rfl, rfl⟩

/-- C3 counterexample: a Services row with no standalone tag, a
`"Common PL"` tag, mapping field 1 starting with "Operational Service" and
mapping field 2 equal to the literal of the claim,
"Complete Care (excluding MS & GL)": the rule of the claim classifies it as
`ServicesFocus`, but the code — whose prefix literal is
"Complete Care (excl. MS & GL)" — classifies it as `ServicesStandard`. -/
theorem c3_complete_care_literal_counterexample :
    (servicesSchemeUpdate servicesC3Row).scheme_name = "ServicesStandard"
  ∧ (servicesSchemeUpdateClaim servicesC3Row).scheme_name = "ServicesFocus"
  ∧ servicesSchemeUpdate servicesC3Row ≠ servicesSchemeUpdateClaim servicesC3Row := by
  refine ⟨?_, ?_, ?_⟩ <;> decide

/-- C3 amended: the Services reclassification is exactly the rule of the
claim with the code prefix literal "Complete Care (excl. MS & GL)" in place of
"Complete Care (excluding MS & GL)": rows whose standalone tag is already
set (in particular "Services Focus standalone" / "Services Standard
standalone") keep their scheme name; rows with a blank standalone tag and
common-product-line tag "Common PL" become `ServicesFocus` when mapping
field 1 starts with "Operational Service" and mapping field 2 starts with
"Complete Care (excl. MS & GL)", become `ServicesStandard` when both
mapping fields are non-blank and field 2 does not start with that literal,
and are left unchanged otherwise. -/
theorem c3_services_reclassification_amended (r : ClassRow) :
    servicesSchemeUpdate r = servicesSchemeUpdateAmended r := by
  unfold servicesSchemeUpdate servicesSchemeUpdateAmended
  cases hp : r.pn_standalone with
  | none =>
    cases hc : r.common_pn_pl with
    | none => simp [cellBlank]
    | some c =>
      by_cases hcc : c = "Common PL" <;> simp [cellBlank, hcc]
  | some s =>
    by_cases h1 : s = "Services Focus standalone"
    · simp [h1, cellBlank]
    · by_cases h2 : s = "Services Standard standalone"
      · simp [h1, h2, cellBlank]
      · by_cases h3 : s = ""
        · subst h3
          cases hc : r.common_pn_pl with
          | none => simp [cellBlank]
          | some c =>
            by_cases hcc : c = "Common PL" <;> simp [cellBlank, hcc]
        · simp [h1, h2, h3, cellBlank]

/-- C9: resolving a dataset whose headers are exactly the canonical field
names maps each canonical field to itself (the rename map is the identity
pairing), renaming with that map leaves the headers unchanged, resolving
twice yields the same mapping as resolving once, and — resolution being a
pure function of the header list — identical header sets always produce
the same rename map.  All of this holds for every behaviour of the
approximate matcher `cm` (the `difflib.get_close_matches` collaborator),
because literal alias matching settles every field first. -/
theorem c9_schema_resolution_idempotent (cm : ℚ → String → List String → Option String) :
    buildColumnMapping cm mainFileMappings canonicalHeaders
      = canonicalHeaders.map (fun c => (c, c))
  ∧ applyRename (buildColumnMapping cm mainFileMappings canonicalHeaders) canonicalHeaders
      = canonicalHeaders
  ∧ buildColumnMapping cm mainFileMappings
      (applyRename (buildColumnMapping cm mainFileMappings canonicalHeaders) canonicalHeaders)
      = buildColumnMapping cm mainFileMappings canonicalHeaders
  ∧ ∀ h1 h2 : List String, h1 = h2 →
      buildColumnMapping cm mainFileMappings h1 = buildColumnMapping cm mainFileMappings h2 := by
  refine ⟨rfl, rfl, rfl, ?_⟩
  intro h1 h2 h
  rw [h]

/-- Witness for C9 with a concrete (always-failing) approximate matcher and
the canonical header set. -/
theorem c9_schema_resolution_idempotent_witness :
    canonicalHeaders = canonicalHeaders
  ∧ buildColumnMapping (fun _ _ _ => none) mainFileMappings canonicalHeaders
      = buildColumnMapping (fun _ _ _ => none) mainFileMappings canonicalHeaders :=
  ⟨rfl, (c9_schema_resolution_idempotent (fun _ _ _ => none)).2.2.2
    canonicalHeaders canonicalHeaders rfl⟩

end FlashReport
